import Mathlib

/-!
Verification of the data-cleaning, indicator and signal-classifier logic of
the `latam_macro.py` dashboard script.

The script operates on pandas Series of IEEE-754 doubles.  We embed the
numeric values shallowly as `FV` (a rational, NaN, or a signed infinity),
with the IEEE semantics the script relies on: comparisons against NaN are
false, division of a nonzero finite by zero yields a signed infinity, and
0/0 yields NaN.  Square roots (which enter only through rolling standard
deviations) are handled symbolically: a standard deviation is represented by
its sample variance, which is zero, NaN, or positive exactly when the
standard deviation is, so every definedness/sign question the claims ask is
decided by the variance payload.
-/

/-- Floating-point value as used by the script: NaN, a finite rational, or a
signed infinity. -/
inductive FV where
  | nan : FV
  | fin (q : ℚ) : FV
  | inf : FV
  | ninf : FV
deriving DecidableEq, Repr

/-- IEEE subtraction on `FV` (the finite case is exact rational subtraction;
NaN propagates; `inf - inf` is NaN). -/
def FV.sub : FV → FV → FV
  | .nan, _ => .nan
  | _, .nan => .nan
  | .fin a, .fin b => .fin (a - b)
  | .inf, .fin _ => .inf
  | .ninf, .fin _ => .ninf
  | .fin _, .inf => .ninf
  | .fin _, .ninf => .inf
  | .inf, .inf => .nan
  | .ninf, .ninf => .nan
  | .inf, .ninf => .inf
  | .ninf, .inf => .ninf

/-- Multiplication of an `FV` by a finite rational constant (used for the
`* 100` percent conversions in the script). -/
def FV.scale (c : ℚ) : FV → FV
  | .nan => .nan
  | .fin q => .fin (c * q)
  | .inf => if 0 < c then .inf else if c < 0 then .ninf else .nan
  | .ninf => if 0 < c then .ninf else if c < 0 then .inf else .nan

/-- IEEE division of two finite doubles: exact when the divisor is nonzero;
`x / 0` is a signed infinity for nonzero `x` and NaN for `x = 0`
(the script's positive zeros). -/
def fdivQ (a b : ℚ) : FV :=
  if b ≠ 0 then .fin (a / b)
  else if a = 0 then .nan
  else if 0 < a then .inf
  else .ninf

/-- IEEE `<` on `FV`: any comparison involving NaN is false. -/
def FV.ltB : FV → FV → Bool
  | .nan, _ => false
  | _, .nan => false
  | .fin a, .fin b => a < b
  | .ninf, .fin _ => true
  | .fin _, .inf => true
  | .ninf, .inf => true
  | _, _ => false

/-- IEEE `>` on `FV`. -/
def FV.gtB (a b : FV) : Bool := FV.ltB b a

/-- IEEE `abs` on `FV`. -/
def FV.absFV : FV → FV
  | .nan => .nan
  | .fin q => .fin |q|
  | .inf => .inf
  | .ninf => .inf

/-- The enumerated signal label set. -/
inductive Signal where
  | Bullish : Signal
  | Bearish : Signal
  | Neutral : Signal
deriving DecidableEq, Repr

/-!
## Spread signal
`latam_macro.py` lines 328-340: on the most recent `Spread_ZScore` value,
`if abs(current_zscore) > 2:` then bearish when `current_zscore > 2`,
bullish otherwise; else neutral, each with its `trade_idea` string.
-/

/-- The spread signal classifier (lines 328-343), producing the label and
the `trade_idea` rationale string. -/
def spreadSignal (z : FV) : Signal × String :=
  if FV.gtB (FV.absFV z) (.fin 2) then
    if FV.gtB z (.fin 2) then
      (.Bearish, "Short equities, long FX (equities overvalued vs FX)")
    else
      (.Bullish, "Long equities, short FX (equities undervalued vs FX)")
  else
    (.Neutral, "No significant divergence detected")

/-!
## Momentum signal
Lines 354-365 compute `Equity_Momentum = Equity_Price.pct_change(5)` and
`FX_Momentum = FX_Price.pct_change(5)`, read the last row of each, and
multiply by 100.  Lines 376-398 accumulate `momentum_score` and map it to a
label and a rationale.
-/

/-- `Series.pct_change(n)` at row `i` of a column `xs` of finite values:
NaN on the first `n` rows, otherwise `xs[i] / xs[i-n] - 1` with IEEE
division. -/
def pctChange (n : Nat) (xs : List ℚ) (i : Nat) : FV :=
  if i < xs.length ∧ n ≤ i then
    FV.sub (fdivQ (xs.getD i 0) (xs.getD (i - n) 0)) (.fin 1)
  else
    .nan

/-- `current_equity_momentum` (line 359): the last row of
`Equity_Price.pct_change(5)`, times 100. -/
def currentMomentumPct (prices : List ℚ) : FV :=
  FV.scale 100 (pctChange 5 prices (prices.length - 1))

/-- `momentum_score` (lines 376-385): start at 0; add 1 if the equity 5-day
percent change exceeds 2, subtract 1 if below -2; add 1 if the FX 5-day
percent change exceeds 1, subtract 1 if below -1.  Comparisons follow IEEE,
so NaN contributes 0. -/
def momentum_score (e f : FV) : Int :=
  (if FV.gtB e (.fin 2) then 1 else if FV.ltB e (.fin (-2)) then -1 else 0)
    + (if FV.gtB f (.fin 1) then 1 else if FV.ltB f (.fin (-1)) then -1 else 0)

/-- Label branch of lines 387-398. -/
def momentumLabel (s : Int) : Signal :=
  if 0 < s then .Bullish else if s < 0 then .Bearish else .Neutral

/-- Rationale (`trade_idea`) branch of lines 387-398. -/
def momentumIdea (s : Int) : String :=
  if 0 < s then "Consider long positions, momentum favors upside"
  else if s < 0 then "Consider short positions, momentum favors downside"
  else "Mixed signals, wait for clearer direction"

/-- The momentum signal evaluated on the cleaned table's equity and FX
price columns (lines 354-398 end to end). -/
def momentumSignalOfTable (eqPrices fxPrices : List ℚ) : Signal × String :=
  let s := momentum_score (currentMomentumPct eqPrices) (currentMomentumPct fxPrices)
  (momentumLabel s, momentumIdea s)

/-- C1: The spread signal classifier, applied to the most recent finite
Spread Z-Score value `z`, returns Bearish iff `z > 2`, Bullish iff `z < -2`,
and Neutral otherwise; in particular the thresholds are strict, so `z = 2`
and `z = -2` give Neutral, `z = 2.5` gives Bearish, `z = -2.5` gives
Bullish, and `z = 0` gives Neutral. -/
theorem c1_spread_thresholds : ∀ z : ℚ,
    (spreadSignal (.fin z)).1 =
      (if 2 < z then Signal.Bearish else if z < -2 then Signal.Bullish else Signal.Neutral) := by
  intro z
  by_cases h1 : 2 < z
  · have h2 : 2 < |z| := lt_of_lt_of_le h1 (le_abs_self z)
    simp [spreadSignal, FV.gtB, FV.ltB, FV.absFV, h1, h2]
  · by_cases h2 : z < -2
    · have : 2 < |z| := by
        rw [lt_abs]; right; linarith
      simp [spreadSignal, FV.gtB, FV.ltB, FV.absFV, h1, h2, this]
    · have : ¬ (2 < |z|) := by
        rw [lt_abs]; push_neg; constructor <;> linarith
      simp [spreadSignal, FV.gtB, FV.ltB, FV.absFV, h1, h2, this]

/-- C3: `momentum_score` starts at 0, adds 1 if the equity 5-day percent
change exceeds 2, subtracts 1 if below -2, adds 1 if the FX 5-day percent
change exceeds 1, subtracts 1 if below -1; the label is Bullish for a
positive score, Bearish for a negative one, Neutral for 0; and equity
change +3% with FX change +0.5% gives score +1 and label Bullish. -/
theorem c3_momentum_score : ∀ e f : ℚ,
    momentum_score (.fin e) (.fin f) =
      ((if 2 < e then 1 else if e < -2 then -1 else 0)
        + (if 1 < f then 1 else if f < -1 then -1 else 0) : Int)
    ∧ (∀ s : Int,
        momentumLabel s =
          if 0 < s then Signal.Bullish else if s < 0 then Signal.Bearish else Signal.Neutral)
    ∧ momentum_score (.fin 3) (.fin (1/2)) = 1
    ∧ momentumLabel (momentum_score (.fin 3) (.fin (1/2))) = Signal.Bullish := by
  intro e f
  refine ⟨?_, fun s => rfl, ?_, ?_⟩
  · simp only [momentum_score, FV.gtB, FV.ltB, decide_eq_true_eq]
  · norm_num [momentum_score, FV.gtB, FV.ltB]
  · norm_num [momentum_score, momentumLabel, FV.gtB, FV.ltB]

/-- The characteristic fact behind C2: when the cleaned table has at most 5
rows, the last row of the 5-day momentum column is NaN. -/
theorem currentMomentumPct_nan (xs : List ℚ) (h : xs.length ≤ 5) :
    currentMomentumPct xs = FV.nan := by
  unfold currentMomentumPct pctChange
  rw [if_neg]
  · rfl
  · rintro ⟨_, h2⟩; omega

/-- C2 counterexample: with a 5-row cleaned table the 5-day momentum
indicator at the last row is undefined (NaN), and the momentum signal is
Neutral — but its rationale is the generic neutral message, not
"not enough data" as the claim states. -/
theorem c2_counterexample :
    currentMomentumPct [1, 1, 1, 1, 1] = FV.nan ∧
    momentumSignalOfTable [1, 1, 1, 1, 1] [1, 1, 1, 1, 1] =
      (Signal.Neutral, "Mixed signals, wait for clearer direction") ∧
    "Mixed signals, wait for clearer direction" ≠ "not enough data" :=
  ⟨rfl, rfl, by decide⟩

/-- C2 amended: when a required momentum indicator is undefined because the
cleaned table has 5 or fewer rows, the momentum signal evaluates without
error to Neutral, with the classifier's generic neutral rationale
"Mixed signals, wait for clearer direction" (not "not enough data"):
NaN fails every threshold comparison, so the score stays 0. -/
theorem c2_amended : ∀ eqP fxP : List ℚ, eqP.length ≤ 5 → fxP.length ≤ 5 →
    currentMomentumPct eqP = FV.nan ∧
    momentumSignalOfTable eqP fxP =
      (Signal.Neutral, "Mixed signals, wait for clearer direction") := by
  intro eqP fxP h1 h2
  refine ⟨currentMomentumPct_nan eqP h1, ?_⟩
  unfold momentumSignalOfTable
  rw [currentMomentumPct_nan eqP h1, currentMomentumPct_nan fxP h2]
  rfl

/-- Witness for `c2_amended` at a concrete 5-row table. -/
theorem c2_amended_witness :
    currentMomentumPct ([1, 1, 1, 1, 1] : List ℚ) = FV.nan ∧
    momentumSignalOfTable ([1, 1, 1, 1, 1] : List ℚ) [1, 1, 1, 1, 1] =
      (Signal.Neutral, "Mixed signals, wait for clearer direction") :=
  c2_amended [1, 1, 1, 1, 1] [1, 1, 1, 1, 1] (by decide) (by decide)

/-!
## Event-driven gamma model
Lines 413-452: the configured election dates give a "Days Until" column;
rows with `Days Until > 0` are kept and sorted ascending, so `iloc[0]` is
the minimum.  Thresholds 30 and 90 days pick the label; an empty
configuration and an all-past configuration produce two different
rationales.
-/

/-- Minimum of a list of integers (models `sort_values` ascending followed
by `iloc[0]` on the filtered "Days Until" column). -/
def minInt : List Int → Option Int
  | [] => none
  | x :: xs =>
    match minInt xs with
    | none => some x
    | some m => some (min x m)

/-- The gamma/event signal (lines 413-452) as a function of the configured
events' day offsets from today (`(strptime(date) - now).days`). -/
def gammaSignal (events : List Int) : Signal × String :=
  match events with
  | [] => (.Bearish, "No events configured")
  | _ :: _ =>
    match minInt (events.filter (fun d => decide (0 < d))) with
    | none => (.Bearish, "No upcoming events detected")
    | some d =>
      if d ≤ 30 then
        (.Bullish, "Buy straddles/strangles - " ++ toString d ++ " days until event")
      else if d ≤ 90 then
        (.Neutral, "Prepare gamma positions - " ++ toString d ++ " days until event")
      else
        (.Bearish, "Too far from events, focus on other strategies")

/-- C4 counterexample: with one configured but already-past event, the
gamma signal is Bearish with rationale "No upcoming events detected", which
differs from the "No events configured" rationale the claim asserts for the
no-future-events case. -/
theorem c4_counterexample :
    gammaSignal [-10] = (Signal.Bearish, "No upcoming events detected") ∧
    "No upcoming events detected" ≠ "No events configured" :=
  ⟨rfl, by decide⟩

/-- C4 amended: with a nearest strictly-future event `d` days away the
gamma signal is Bullish when `d ≤ 30`, Neutral when `30 < d ≤ 90`, Bearish
when `d > 90`; with no configured events it is Bearish with rationale
"No events configured", and with configured but no strictly-future events
it is Bearish with rationale "No upcoming events detected". -/
theorem c4_amended : ∀ events : List Int,
    (events = [] → gammaSignal events = (Signal.Bearish, "No events configured")) ∧
    (events ≠ [] → minInt (events.filter (fun d => decide (0 < d))) = none →
      gammaSignal events = (Signal.Bearish, "No upcoming events detected")) ∧
    (∀ d, minInt (events.filter (fun d => decide (0 < d))) = some d →
      ((d ≤ 30 → (gammaSignal events).1 = Signal.Bullish) ∧
       (30 < d → d ≤ 90 → (gammaSignal events).1 = Signal.Neutral) ∧
       (90 < d → (gammaSignal events).1 = Signal.Bearish))) := by
  intro events
  refine ⟨?_, ?_, ?_⟩
  · rintro rfl; rfl
  · intro hne hmin
    cases events with
    | nil => exact absurd rfl hne
    | cons a l => simp [gammaSignal, hmin]
  · intro d hd
    cases events with
    | nil => simp [minInt] at hd
    | cons a l =>
      refine ⟨?_, ?_, ?_⟩
      · intro h30
        simp [gammaSignal, hd, h30]
      · intro h30 h90
        simp [gammaSignal, hd, h90, show ¬ (d ≤ 30) by omega]
      · intro h90
        simp [gammaSignal, hd, show ¬ (d ≤ 30) by omega, show ¬ (d ≤ 90) by omega]

/-- Witness for `c4_amended` at the spec's own example inputs. -/
theorem c4_amended_witness :
    gammaSignal [] = (Signal.Bearish, "No events configured") ∧
    gammaSignal [-5] = (Signal.Bearish, "No upcoming events detected") ∧
    (gammaSignal [20]).1 = Signal.Bullish ∧
    (gammaSignal [60]).1 = Signal.Neutral ∧
    (gammaSignal [200]).1 = Signal.Bearish :=
  ⟨(c4_amended []).1 rfl,
   (c4_amended [-5]).2.1 (by decide) (by decide),
   ((c4_amended [20]).2.2 20 (by decide)).1 (by decide),
   ((c4_amended [60]).2.2 60 (by decide)).2.1 (by decide) (by decide),
   ((c4_amended [200]).2.2 200 (by decide)).2.2 (by decide)⟩

/-!
## Data assembly
Lines 170-206: the equity index is the master index; FX and (when present
with at least `MIN_DATA_POINTS = 5` rows) local-equity closes are aligned
onto it by date; `ffill` then `bfill` run per column; a missing
local-equity column falls back to the (already filled) equity column; and
`df.dropna()` removes every row that still has a missing value in ANY
column.
-/

/-- `MIN_DATA_POINTS` (line 181). -/
def MIN_DATA_POINTS : Nat := 5

/-- Align one series onto a date: the close for that date, or missing. -/
def lookupDate (s : List (Nat × ℚ)) (d : Nat) : Option ℚ :=
  (s.find? (fun p => p.1 == d)).map (fun p => p.2)

/-- Forward fill, carrying the last defined value. -/
def ffillFrom : Option ℚ → List (Option ℚ) → List (Option ℚ)
  | _, [] => []
  | acc, none :: xs => acc :: ffillFrom acc xs
  | _, some q :: xs => some q :: ffillFrom (some q) xs

/-- `Series.ffill()`. -/
def ffill (xs : List (Option ℚ)) : List (Option ℚ) := ffillFrom none xs

/-- `Series.bfill()`. -/
def bfill (xs : List (Option ℚ)) : List (Option ℚ) :=
  (ffillFrom none xs.reverse).reverse

/-- One row of the assembled table before `dropna`: date plus the three
price columns, each possibly still missing. -/
structure AsmRow where
  date : Nat
  eq : Option ℚ
  fx : Option ℚ
  loc : Option ℚ
deriving DecidableEq, Repr

/-- The assembled, filled table (lines 170-197): master index from the
equity series; FX aligned by date; local equity aligned by date only when
its series is present with at least `MIN_DATA_POINTS` rows, otherwise the
column equals the filled equity column. -/
def assembleTable (equity fx : List (Nat × ℚ)) (localOpt : Option (List (Nat × ℚ))) :
    List AsmRow :=
  let master := equity.map (fun p => p.1)
  let eqF := bfill (ffill (master.map (lookupDate equity)))
  let fxF := bfill (ffill (master.map (lookupDate fx)))
  let useLoc : Bool :=
    match localOpt with
    | some l => MIN_DATA_POINTS ≤ l.length
    | none => false
  let locF :=
    if useLoc then bfill (ffill (master.map (lookupDate (localOpt.getD []))))
    else eqF
  (List.range master.length).map (fun i =>
    ⟨master.getD i 0, eqF.getD i none, fxF.getD i none, locF.getD i none⟩)

/-- `df.dropna()` (line 201): keep exactly the rows in which every column
is defined. -/
def dropnaRows (rows : List AsmRow) : List AsmRow :=
  rows.filter (fun r => r.eq.isSome && r.fx.isSome && r.loc.isSome)

/-- C5 counterexample: equity and FX overlap on dates 1 and 2 and are fully
defined there, but a 5-observation local-equity series on disjoint dates
leaves the local column entirely missing, so `dropna` removes every row —
rows with defined equity and FX prices are dropped because of the
local-equity column, contradicting the claim that only rows missing equity
or FX are removed. -/
theorem c5_counterexample :
    ((assembleTable [(1, 10), (2, 11)] [(1, 5), (2, 5)]
        (some [(10, 1), (11, 1), (12, 1), (13, 1), (14, 1)])).map
      (fun r => (r.eq.isSome, r.fx.isSome))) = [(true, true), (true, true)] ∧
    dropnaRows (assembleTable [(1, 10), (2, 11)] [(1, 5), (2, 5)]
        (some [(10, 1), (11, 1), (12, 1), (13, 1), (14, 1)])) = [] := by
  refine ⟨rfl, rfl⟩

/-- C5 amended: after filling, `dropna` removes exactly the rows missing a
value in ANY column — equity, FX, or local equity.  Every retained row has
defined equity and FX prices, and a row is retained iff all three columns
are defined; in particular a row with defined equity and FX prices can
still be dropped when the local-equity column is undefined (e.g. when the
local series' dates are disjoint from the master index). -/
theorem c5_amended : ∀ (rows : List AsmRow) (r : AsmRow),
    r ∈ dropnaRows rows ↔
      (r ∈ rows ∧ r.eq.isSome = true ∧ r.fx.isSome = true ∧ r.loc.isSome = true) := by
  intro rows r
  simp [dropnaRows, List.mem_filter, and_assoc]

/-- Witness for `c5_amended`: a fully defined row is retained. -/
theorem c5_amended_witness :
    (⟨1, some 10, some 5, some 10⟩ : AsmRow) ∈
      dropnaRows [⟨1, some 10, some 5, some 10⟩, ⟨2, some 11, none, some 11⟩] :=
  (c5_amended [⟨1, some 10, some 5, some 10⟩, ⟨2, some 11, none, some 11⟩]
      ⟨1, some 10, some 5, some 10⟩).mpr
    ⟨by decide, rfl, rfl, rfl⟩

/-- C6: when the local-equity series is absent or has fewer than
`MIN_DATA_POINTS = 5` observations, the local-equity column of the
assembled table equals the equity column, row for row (and hence also in
the table `dropna` keeps). -/
theorem c6_local_equity_fallback : ∀ (equity fx : List (Nat × ℚ))
    (localOpt : Option (List (Nat × ℚ))),
    (localOpt = none ∨ ∃ l, localOpt = some l ∧ l.length < MIN_DATA_POINTS) →
    ∀ r ∈ assembleTable equity fx localOpt, r.loc = r.eq := by
  intro equity fx localOpt h r hr
  rcases h with hnone | ⟨l, hl, hlen⟩
  · subst hnone
    simp only [assembleTable, Bool.false_eq_true, if_false, List.mem_map] at hr
    obtain ⟨i, _, hi⟩ := hr
    rw [← hi]
  · subst hl
    have hfalse : decide (MIN_DATA_POINTS ≤ l.length) = false := decide_eq_false (by omega)
    simp only [assembleTable, hfalse, Bool.false_eq_true, if_false, List.mem_map] at hr
    obtain ⟨i, _, hi⟩ := hr
    rw [← hi]

/-- Witness for `c6_local_equity_fallback` with no local series. -/
theorem c6_witness :
    AsmRow.loc ⟨1, some 10, some 5, some 10⟩ = AsmRow.eq ⟨1, some 10, some 5, some 10⟩ :=
  c6_local_equity_fallback [(1, 10), (2, 11)] [(1, 5), (2, 5)] none (Or.inl rfl)
    ⟨1, some 10, some 5, some 10⟩ (by decide)

/-!
## Returns
`calculate_returns` (lines 155-156) is `prices.pct_change().dropna()`; the
`dropna` removes the first (NaN) entry but the assignment back into a table
column realigns by index, so the column value at row 0 is again missing:
the column equals `pct_change(1)` row for row.
-/

/-- `calculate_returns` (lines 155-156) as a per-row column value. -/
def calculate_returns (prices : List ℚ) (i : Nat) : FV := pctChange 1 prices i

/-- C7: Returns at row 0 is undefined, and at every row `i > 0` within the
table with a nonzero previous price it equals `x[i] / x[i-1] - 1`. -/
theorem c7_returns : ∀ (xs : List ℚ) (i : Nat),
    calculate_returns xs 0 = FV.nan ∧
    (0 < i → i < xs.length → xs.getD (i - 1) 0 ≠ 0 →
      calculate_returns xs i = FV.fin (xs.getD i 0 / xs.getD (i - 1) 0 - 1)) := by
  intro xs i
  constructor
  · unfold calculate_returns pctChange
    rw [if_neg]
    rintro ⟨_, h⟩
    omega
  · intro h0 hlen hprev
    unfold calculate_returns pctChange
    rw [if_pos ⟨hlen, h0⟩]
    unfold fdivQ
    rw [if_pos hprev]
    rfl

/-- Witness for `c7_returns` on a concrete price column. -/
theorem c7_returns_witness :
    calculate_returns [4, 6] 0 = FV.nan ∧
    calculate_returns [4, 6] 1 = FV.fin ((6 : ℚ) / 4 - 1) :=
  ⟨(c7_returns [4, 6] 0).1,
   (c7_returns [4, 6] 1).2 (by decide) (by decide) (by norm_num)⟩

/-!
## Rolling statistics and the z-score
`calculate_zscore` (lines 161-162) is
`(series - series.rolling(window).mean()) / series.rolling(window).std()`
with `window = 20`; pandas `rolling` uses `min_periods = window`, so the
first `window - 1` rows are NaN, and `std` is the sample standard deviation
(ddof = 1).  The standard deviation is `√variance`, so it is zero exactly
when the sample variance is zero; we carry the variance payload instead of
the irrational square root.
-/

/-- The trailing window of `w` observations ending at row `i`. -/
def rollingWindow (w : Nat) (xs : List ℚ) (i : Nat) : List ℚ :=
  (xs.take (i + 1)).drop (i + 1 - w)

/-- `series.rolling(w).mean()` at row `i`: defined only once the window is
full. -/
def rollingMean (w : Nat) (xs : List ℚ) (i : Nat) : Option ℚ :=
  if w ≤ i + 1 ∧ i < xs.length then
    some ((rollingWindow w xs i).sum / (w : ℚ))
  else
    none

/-- The sample variance (ddof = 1) of the trailing window at row `i`;
`series.rolling(w).std()` is its square root. -/
def rollingSampleVar (w : Nat) (xs : List ℚ) (i : Nat) : Option ℚ :=
  match rollingMean w xs i with
  | some m =>
      some (((rollingWindow w xs i).map (fun x => (x - m) ^ 2)).sum / ((w : ℚ) - 1))
  | none => none

/-- Result of `calculate_zscore` at one row.  `val num varr` stands for the
float `num / √varr` with `varr > 0`; NaN and the signed infinities are the
IEEE outcomes of a NaN or zero standard deviation. -/
inductive ZScoreVal where
  | nan : ZScoreVal
  | inf : ZScoreVal
  | ninf : ZScoreVal
  | val (num varr : ℚ) : ZScoreVal
deriving DecidableEq, Repr

/-- `calculate_zscore` (lines 161-162) at row `i`:
`(series[i] - rolling mean) / rolling std`, with IEEE division by a zero
standard deviation (0/0 is NaN, nonzero/0 a signed infinity) and NaN
whenever the window is not full. -/
def calculate_zscore (xs : List ℚ) (w : Nat) (i : Nat) : ZScoreVal :=
  match rollingMean w xs i, rollingSampleVar w xs i with
  | some m, some v =>
      let num := xs.getD i 0 - m
      if v = 0 then
        (if num = 0 then .nan else if 0 < num then .inf else .ninf)
      else
        .val num v
  | _, _ => .nan

/-- The element at row `i` belongs to its own trailing window. -/
theorem getD_mem_rollingWindow (w : Nat) (xs : List ℚ) (i : Nat)
    (hi : i < xs.length) (hw : w ≤ i + 1) (hw0 : 0 < w) :
    xs.getD i 0 ∈ rollingWindow w xs i := by
  have hlen : (xs.take (i + 1)).length = i + 1 := by
    simp [List.length_take]
    omega
  have hwin : (rollingWindow w xs i).length = w := by
    simp [rollingWindow, List.length_drop, hlen]
    omega
  have hidx : w - 1 < (rollingWindow w xs i).length := by omega
  have hidx3 : i + 1 - w + (w - 1) = i := by omega
  have helem : (rollingWindow w xs i).get ⟨w - 1, hidx⟩ = xs.getD i 0 := by
    unfold rollingWindow
    rw [List.get_eq_getElem, List.getElem_drop, List.getElem_take,
      List.getD_eq_getElem xs 0 hi]
    simp only [hidx3]
  rw [← helem]
  exact List.get_mem _ _ hidx

/-- C8: the 20-observation z-score is NaN on every row with fewer than 20
prior observations (the first 19 rows), and on any row whose trailing
20-observation window is constant the zero sample standard deviation makes
the z-score NaN (0/0) rather than a spurious finite value. -/
theorem c8_zscore : ∀ (xs : List ℚ) (i : Nat) (c : ℚ),
    (i + 1 < 20 → calculate_zscore xs 20 i = ZScoreVal.nan) ∧
    (20 ≤ i + 1 → i < xs.length →
      (∀ x ∈ rollingWindow 20 xs i, x = c) → calculate_zscore xs 20 i = ZScoreVal.nan) := by
  intro xs i c
  constructor
  · intro hlt
    have hm : rollingMean 20 xs i = none := by
      unfold rollingMean
      rw [if_neg]
      rintro ⟨h1, _⟩
      omega
    have hv : rollingSampleVar 20 xs i = none := by
      unfold rollingSampleVar
      rw [hm]
    unfold calculate_zscore
    rw [hm, hv]
  · intro hw hi hconst
    have hwlen : (rollingWindow 20 xs i).length = 20 := by
      simp only [rollingWindow, List.length_drop, List.length_take]
      omega
    have hrepl : rollingWindow 20 xs i = List.replicate 20 c := by
      have h := List.eq_replicate_of_mem hconst
      rwa [hwlen] at h
    have hsum : (rollingWindow 20 xs i).sum = 20 * c := by
      rw [hrepl, List.sum_replicate, nsmul_eq_mul]
      norm_num
    have hm : rollingMean 20 xs i = some c := by
      unfold rollingMean
      rw [if_pos ⟨hw, hi⟩, hsum]
      norm_num
    have hv : rollingSampleVar 20 xs i = some 0 := by
      unfold rollingSampleVar
      rw [hm, hrepl]
      simp [List.map_replicate, List.sum_replicate]
    have hnum : xs.getD i 0 = c :=
      hconst _ (getD_mem_rollingWindow 20 xs i hi hw (by omega))
    unfold calculate_zscore
    rw [hm, hv, hnum]
    simp

/-- Witness for `c8_zscore`: a too-early row and a constant window. -/
theorem c8_zscore_witness :
    calculate_zscore [] 20 3 = ZScoreVal.nan ∧
    calculate_zscore (List.replicate 20 (7 : ℚ)) 20 19 = ZScoreVal.nan :=
  ⟨(c8_zscore [] 3 0).1 (by decide),
   (c8_zscore (List.replicate 20 (7 : ℚ)) 19 7).2 (by decide) (by decide)
     (by decide)⟩

/-!
## Volatility and the volatility ratio
`calculate_volatility` (lines 158-159) is
`returns.rolling(window).std() * np.sqrt(252)`; line 356 divides the equity
volatility column by the FX volatility column.  A volatility is NaN exactly
when its rolling sample variance is, zero exactly when the variance is
zero, and positive otherwise, so we carry the variance payload: `val v`
denotes the float `√v * √252`.
-/

/-- `calculate_volatility` at one row, by its variance payload: `val v`
denotes the float `√v * √252`. -/
inductive VolVal where
  | nan : VolVal
  | val (varr : ℚ) : VolVal
deriving DecidableEq, Repr

/-- `calculate_volatility` (lines 158-159) at row `i`. -/
def calculate_volatility (rets : List ℚ) (w : Nat) (i : Nat) : VolVal :=
  match rollingSampleVar w rets i with
  | some v => .val v
  | none => .nan

/-- Result of the per-row volatility-ratio division: `val a b` denotes the
float `√(a·252) / √(b·252) = √(a/b)` with `b ≠ 0`; NaN and `+∞` are the
IEEE outcomes (both volatilities are nonnegative, so `-∞` cannot occur). -/
inductive RatioVal where
  | nan : RatioVal
  | inf : RatioVal
  | val (num den : ℚ) : RatioVal
deriving DecidableEq, Repr

/-- `df['Volatility_Ratio'] = df['Equity_Volatility'] / df['FX_Volatility']`
(line 356) at one row, with IEEE division: NaN propagates, `x / 0` is NaN
for `x = 0` and `+∞` for positive `x` (volatilities are nonnegative). -/
def ratioOfVols : VolVal → VolVal → RatioVal
  | .nan, _ => .nan
  | _, .nan => .nan
  | .val a, .val b =>
    if b = 0 then (if a = 0 then .nan else .inf) else .val a b

/-- C9 counterexample: over a 5-row window, oscillating equity returns give
a positive equity volatility while constant FX returns give FX volatility
exactly zero; the volatility ratio at that row is then `+∞` — an infinite
numeric value — not undefined as the claim states for every row with zero
FX volatility. -/
theorem c9_counterexample :
    calculate_volatility [0, 1, 0, 1, 0] 5 4 = VolVal.val (3 / 10) ∧
    calculate_volatility [0, 0, 0, 0, 0] 5 4 = VolVal.val 0 ∧
    ratioOfVols (calculate_volatility [0, 1, 0, 1, 0] 5 4)
        (calculate_volatility [0, 0, 0, 0, 0] 5 4) = RatioVal.inf ∧
    RatioVal.inf ≠ RatioVal.nan := by
  refine ⟨?_, ?_, ?_, by simp⟩
  · norm_num [calculate_volatility, rollingSampleVar, rollingMean, rollingWindow]
  · norm_num [calculate_volatility, rollingSampleVar, rollingMean, rollingWindow, ratioOfVols]
  · norm_num [calculate_volatility, rollingSampleVar, rollingMean, rollingWindow, ratioOfVols]

/-- C9 amended: the volatility ratio at each row is the IEEE quotient of
the equity and FX volatilities: NaN where either volatility is undefined or
both are zero, `+∞` (an infinite value, not an undefined one) where the FX
volatility is zero and the equity volatility positive, and the finite
quotient where the FX volatility is nonzero. -/
theorem c9_amended : ∀ e f : VolVal,
    (f = VolVal.nan → ratioOfVols e f = RatioVal.nan) ∧
    (e = VolVal.nan → ratioOfVols e f = RatioVal.nan) ∧
    (e = VolVal.val 0 → f = VolVal.val 0 → ratioOfVols e f = RatioVal.nan) ∧
    (∀ a, e = VolVal.val a → a ≠ 0 → f = VolVal.val 0 → ratioOfVols e f = RatioVal.inf) ∧
    (∀ a b, e = VolVal.val a → f = VolVal.val b → b ≠ 0 →
      ratioOfVols e f = RatioVal.val a b) := by
  intro e f
  refine ⟨?_, ?_, ?_, ?_, ?_⟩
  · rintro rfl
    cases e <;> rfl
  · rintro rfl
    cases f <;> rfl
  · rintro rfl rfl
    simp [ratioOfVols]
  · rintro a rfl ha rfl
    simp [ratioOfVols, ha]
  · rintro a b rfl rfl hb
    simp [ratioOfVols, hb]

/-- Witness for `c9_amended` at concrete volatility values. -/
theorem c9_amended_witness :
    ratioOfVols (VolVal.val 1) VolVal.nan = RatioVal.nan ∧
    ratioOfVols VolVal.nan (VolVal.val 1) = RatioVal.nan ∧
    ratioOfVols (VolVal.val 0) (VolVal.val 0) = RatioVal.nan ∧
    ratioOfVols (VolVal.val 1) (VolVal.val 0) = RatioVal.inf ∧
    ratioOfVols (VolVal.val 1) (VolVal.val 2) = RatioVal.val 1 2 :=
  ⟨(c9_amended (VolVal.val 1) VolVal.nan).1 rfl,
   (c9_amended VolVal.nan (VolVal.val 1)).2.1 rfl,
   (c9_amended (VolVal.val 0) (VolVal.val 0)).2.2.1 rfl rfl,
   (c9_amended (VolVal.val 1) (VolVal.val 0)).2.2.2.1 1 rfl (by norm_num) rfl,
   (c9_amended (VolVal.val 1) (VolVal.val 2)).2.2.2.2 1 2 rfl rfl (by norm_num)⟩

/-!
## Key Metrics and the one-row table
Line 223 halts only when the cleaned table is empty; lines 273-279 then
read `iloc[-1]` and `iloc[-2]` of the price columns.  With exactly one row
the emptiness check passes but `iloc[-2]` is out of bounds and pandas
raises an uncaught `IndexError` (modelled as `none`).
-/

/-- Python/pandas `Series.iloc[k]` with negative indexing; `none` models an
out-of-bounds `IndexError`. -/
def iloc (xs : List ℚ) (k : Int) : Option ℚ :=
  if 0 ≤ k then xs[k.toNat]?
  else if (-k).toNat ≤ xs.length then xs[xs.length - (-k).toNat]?
  else none

/-- The emptiness guard of line 223: rendering continues iff the cleaned
table is nonempty. -/
def emptyCheckPasses (prices : List ℚ) : Bool := !prices.isEmpty

/-- The Key Metrics daily change (lines 273-279):
`((iloc[-1] / iloc[-2]) - 1) * 100`; `none` models the uncaught
`IndexError` from `iloc[-2]`. -/
def keyMetricsChange (prices : List ℚ) : Option FV :=
  match iloc prices (-1), iloc prices (-2) with
  | some c, some p => some (FV.scale 100 (FV.sub (fdivQ c p) (FV.fin 1)))
  | _, _ => none

/-- C10: with exactly one row the emptiness check passes yet the Key
Metrics `iloc[-2]` read is out of bounds so the render fails with an
indexing error, and with at least two rows the daily-change computation
succeeds: the render completes only when the cleaned table has at least two
rows. -/
theorem c10_key_metrics : ∀ prices : List ℚ,
    (prices.length = 1 →
      emptyCheckPasses prices = true ∧ keyMetricsChange prices = none) ∧
    (2 ≤ prices.length → (keyMetricsChange prices).isSome = true) := by
  intro prices
  constructor
  · intro h1
    constructor
    · unfold emptyCheckPasses
      cases prices with
      | nil => simp at h1
      | cons a l => rfl
    · have h2 : iloc prices (-2) = none := by
        unfold iloc
        rw [if_neg (by norm_num), if_neg (by omega)]
      unfold keyMetricsChange
      rw [h2]
      cases iloc prices (-1) <;> rfl
  · intro h2
    have e1 : iloc prices (-1) = prices[prices.length - 1]? := by
      unfold iloc
      rw [if_neg (by norm_num), if_pos (by omega)]
      norm_num
    have e2 : iloc prices (-2) = prices[prices.length - 2]? := by
      unfold iloc
      rw [if_neg (by norm_num), if_pos (by omega)]
      norm_num
      rfl
    obtain ⟨c, hc⟩ : ∃ c, prices[prices.length - 1]? = some c := by
      rw [List.getElem?_eq_getElem (by omega)]
      exact ⟨_, rfl⟩
    obtain ⟨p, hp⟩ : ∃ p, prices[prices.length - 2]? = some p := by
      rw [List.getElem?_eq_getElem (by omega)]
      exact ⟨_, rfl⟩
    unfold keyMetricsChange
    rw [e1, e2, hc, hp]
    rfl

/-- Witness for `c10_key_metrics` on one-row and two-row tables. -/
theorem c10_key_metrics_witness :
    (emptyCheckPasses [5] = true ∧ keyMetricsChange [5] = none) ∧
    (keyMetricsChange [4, 6]).isSome = true :=
  ⟨(c10_key_metrics [5]).1 rfl, (c10_key_metrics [4, 6]).2 (by decide)⟩
